import Mathlib

/-!
Verification of the `nl5_dll` Python binding (`src/nl5_dll.py`).

The repository is a foreign-function binding over the closed-source NL5
simulation engine.  The binding itself is pure marshalling: every method of
the `NL5_dll` class checks the stored document handle `_ncir`, performs one
or more foreign calls, and turns negative statuses into typed exceptions.

The shallow embedding below models the opaque engine as a record of pure
functions (`Engine`), one per exported entry point, each returning the
integer status (and, for out-parameters, the values written).  Each Python
method becomes a Lean function from the engine, the stored handle `_ncir`,
and the method arguments to an `Except`-style outcome paired with the
chronological list of foreign calls performed, each with its status.
Python `float` is modelled as `Rat`, `str` as `String`.
-/

namespace NL5_dll

/-- The `NL5Exception` subclasses of `nl5_dll.py` (kind only), plus the two
Python-level exceptions two methods raise before reaching their foreign
entry point: builtin `ValueError` (from `int(ct.c_double())` in
`set_input_logical_value`) and `ctypes.ArgumentError` (from the argtype
mismatch in `get_output_logical_value`). -/
inductive ErrKind where
  | openErr
  | param
  | trace
  | value
  | save
  | start
  | delete
  | license
  | notImpl
  | pyValueError
  | pyArgumentError
  deriving DecidableEq

/-- A raised exception: its class and its message string. -/
structure Exc where
  kind : ErrKind
  msg : String
  deriving DecidableEq

/-- One foreign entry-point invocation with the arguments passed across the
boundary, named after the corresponding `NL5_*` export. -/
inductive FCall where
  | NL5_GetLicense (name : String)
  | NL5_Open (name : String)
  | NL5_Close (ncir : Int)
  | NL5_Save (ncir : Int)
  | NL5_SaveAs (ncir : Int) (name : String)
  | NL5_GetValue (ncir : Int) (name : String)
  | NL5_SetValue (ncir : Int) (name : String) (v : Rat)
  | NL5_GetText (ncir : Int) (name : String) (length : Int)
  | NL5_SetText (ncir : Int) (name : String) (text : String)
  | NL5_GetParam (ncir : Int) (name : String)
  | NL5_GetParamValue (ncir : Int) (npar : Int)
  | NL5_SetParamValue (ncir : Int) (npar : Int) (v : Rat)
  | NL5_GetParamText (ncir : Int) (npar : Int) (length : Int)
  | NL5_SetParamText (ncir : Int) (npar : Int) (text : String)
  | NL5_GetTrace (ncir : Int) (name : String)
  | NL5_AddVTrace (ncir : Int) (name : String)
  | NL5_AddITrace (ncir : Int) (name : String)
  | NL5_AddPTrace (ncir : Int) (name : String)
  | NL5_AddVarTrace (ncir : Int) (name : String)
  | NL5_AddFuncTrace (ncir : Int) (text : String)
  | NL5_DeleteTrace (ncir : Int) (ntrace : Int)
  | NL5_SetStep (ncir : Int) (step : Rat)
  | NL5_SetTimeout (ncir : Int) (t : Int)
  | NL5_GetSimulationTime (ncir : Int)
  | NL5_Start (ncir : Int)
  | NL5_Simulate (ncir : Int) (interval : Rat)
  | NL5_SimulateInterval (ncir : Int) (interval : Rat)
  | NL5_SimulateStep (ncir : Int)
  | NL5_SaveIC (ncir : Int)
  | NL5_GetDataSize (ncir : Int) (ntrace : Int)
  | NL5_GetDataAt (ncir : Int) (ntrace : Int) (n : Int)
  | NL5_GetLastData (ncir : Int) (ntrace : Int)
  | NL5_GetData (ncir : Int) (ntrace : Int) (t : Rat)
  | NL5_DeleteOldData (ncir : Int)
  | NL5_SaveData (ncir : Int) (name : String)
  | NL5_GetInput (ncir : Int) (name : String)
  | NL5_SetInputValue (ncir : Int) (nin : Int) (v : Rat)
  | NL5_SetInputLogicalValue (ncir : Int) (nin : Int) (i : Int)
  | NL5_GetOutput (ncir : Int) (name : String)
  | NL5_GetOutputValue (ncir : Int) (nout : Int)
  | NL5_GetOutputLogicalValue (ncir : Int) (nout : Int)
  | NL5_CalcAC (ncir : Int)
  | NL5_GetACTrace (ncir : Int) (name : String)
  | NL5_GetACDataSize (ncir : Int) (ntrace : Int)
  | NL5_GetACDataAt (ncir : Int) (ntrace : Int) (n : Int)
  | NL5_SaveACData (ncir : Int) (name : String)
  deriving DecidableEq

/-- The chronological record of foreign calls a method performed, each with
the integer status the engine returned for it (for `NL5_Open` / `NL5_GetParam`
/ `NL5_GetTrace` / ... the status is the returned handle). -/
abbrev Log := List (FCall × Int)

/-- The opaque engine: one pure function per exported entry point.  Each
returns the `c_int` status; entry points with `POINTER(c_double)` (or text
buffer) out-parameters also return the value they write.
(`NL5_SetInputLogicalValue` and `NL5_GetOutputLogicalValue` are declared by
the binding but unreachable from the high-level methods, which fail at the
Python/ctypes layer first.) -/
structure Engine where
  NL5_GetLicense : String → Int
  NL5_Open : String → Int
  NL5_Close : Int → Int
  NL5_Save : Int → Int
  NL5_SaveAs : Int → String → Int
  NL5_GetValue : Int → String → Int × Rat
  NL5_SetValue : Int → String → Rat → Int
  NL5_GetText : Int → String → Int → Int × String
  NL5_SetText : Int → String → String → Int
  NL5_GetParam : Int → String → Int
  NL5_GetParamValue : Int → Int → Int × Rat
  NL5_SetParamValue : Int → Int → Rat → Int
  NL5_GetParamText : Int → Int → Int → Int × String
  NL5_SetParamText : Int → Int → String → Int
  NL5_GetTrace : Int → String → Int
  NL5_AddVTrace : Int → String → Int
  NL5_AddITrace : Int → String → Int
  NL5_AddPTrace : Int → String → Int
  NL5_AddVarTrace : Int → String → Int
  NL5_AddFuncTrace : Int → String → Int
  NL5_DeleteTrace : Int → Int → Int
  NL5_SetStep : Int → Rat → Int
  NL5_SetTimeout : Int → Int → Int
  NL5_GetSimulationTime : Int → Int × Rat
  NL5_Start : Int → Int
  NL5_Simulate : Int → Rat → Int
  NL5_SimulateInterval : Int → Rat → Int
  NL5_SimulateStep : Int → Int
  NL5_SaveIC : Int → Int
  NL5_GetDataSize : Int → Int → Int
  NL5_GetDataAt : Int → Int → Int → Int × Rat × Rat
  NL5_GetLastData : Int → Int → Int × Rat × Rat
  NL5_GetData : Int → Int → Rat → Int × Rat
  NL5_DeleteOldData : Int → Int
  NL5_SaveData : Int → String → Int
  NL5_GetInput : Int → String → Int
  NL5_SetInputValue : Int → Int → Rat → Int
  NL5_SetInputLogicalValue : Int → Int → Int → Int
  NL5_GetOutput : Int → String → Int
  NL5_GetOutputValue : Int → Int → Int × Rat
  NL5_GetOutputLogicalValue : Int → Int → Int × Rat
  NL5_CalcAC : Int → Int
  NL5_GetACTrace : Int → String → Int
  NL5_GetACDataSize : Int → Int → Int
  NL5_GetACDataAt : Int → Int → Int → Int × Rat × Rat × Rat
  NL5_SaveACData : Int → String → Int

/-- The host outside the engine: the working directory (`os.getcwd`),
`os.path.abspath`, and `np.log10` (used only by `get_freqmagphase_vectors`). -/
structure Env where
  cwd : String
  abspath : String → String
  log10 : Rat → Rat

/-- `os.path.join(path, name)` as the binding uses it (a directory joined
with a bare file name). -/
def osJoin (path name : String) : String := path ++ "/" ++ name

/-- Python `s.endswith(suf)`. -/
def pyEndswith (s suf : String) : Bool := suf.data.isSuffixOf s.data

/-- Python `int()` on a float: truncation toward zero. -/
def pyInt (q : Rat) : Int := if 0 ≤ q then q.floor else q.ceil

/-- ctypes `c_int` marshalling: a Python int crosses the boundary reduced to
a signed 32-bit value (silent wrap mod `2^32`). -/
def cInt (n : Int) : Int := (n + 2 ^ 31) % 2 ^ 32 - 2 ^ 31

/-- Python float formatting in the binding's f-strings (the exact digits do
not matter to any claim; the rendering distinguishes sign and value). -/
def ratStr (q : Rat) : String := toString q

/-- `if not name.endswith(ext): name = f'{name}{ext}'`. -/
def withExt (ext name : String) : String :=
  if pyEndswith name ext then name else name ++ ext

/-- `path = os.path.abspath(path) if path else os.getcwd()`. -/
def resolveDir (env : Env) (path : String) : String :=
  if path ≠ "" then env.abspath path else env.cwd

/-- The message of the `NL5OpenException` most methods raise on `_ncir == -1`. -/
def openMsg : String :=
  "Circuit file not opened or not valid. Try to use open() function first!"

/-- The (copy-pasted) message `close`, `save` and `save_as` use instead. -/
def notOpenedMsg : String := "Error closing NL5 circuit, not opened."

/-- The `NL5ValueException` message of the parameter get/set methods. -/
def paramMsg (name : String) : String :=
  "Parameter " ++ name ++ " not found or parameter type not supported."

/-- The `NL5TraceException` message for an unresolved transient trace. -/
def noTraceMsg (name : String) : String :=
  "Trace " ++ name ++ " does not exist in circuit."

/-- The `NL5TraceException` message for an unresolved AC trace. -/
def noACTraceMsg (name : String) : String :=
  "AC Trace " ++ name ++ " does not exist in circuit."

/-- The `NL5ValueException` message for an out-of-range data index. -/
def idxMsg : String := "Index is less than zero, or greater or equal to data size."

/-- The guard `if self._ncir >= 0: ... else: raise NL5OpenException(msg)`
shared by every per-document method: no foreign call happens when the
handle is invalid. -/
def requireOpen (ncir : Int) (msg : String) (body : Except Exc α × Log) :
    Except Exc α × Log :=
  if ncir ≥ 0 then body else (.error ⟨.openErr, msg⟩, [])

/-- `retval = self.NL5_...(...)` followed by `if retval < 0: raise ...(msg)`:
one foreign call whose negative status raises, recorded in the log. -/
def checkCall (c : FCall) (r : Int) (k : ErrKind) (msg : String) (val : α) :
    Except Exc α × Log :=
  if r < 0 then (.error ⟨k, msg⟩, [(c, r)]) else (.ok val, [(c, r)])

/-- Handle resolution (`NL5_GetParam` / `NL5_GetTrace` / `NL5_GetInput` /
`NL5_GetOutput` / `NL5_GetACTrace` returning `h`): the body runs only when
`h >= 0`, otherwise the exception `⟨k, msg⟩` is raised. -/
def resolveThen (c : FCall) (h : Int) (k : ErrKind) (msg : String)
    (body : Int → Except Exc α × Log) : Except Exc α × Log :=
  if h ≥ 0 then ((body h).1, (c, h) :: (body h).2)
  else (.error ⟨k, msg⟩, [(c, h)])

/-- `path = os.path.abspath(path) if path else self.path` in `get_license`
(the fallback is the dll's own directory, not the working directory). -/
def licenseDir (selfPath : String) (env : Env) (path : String) : String :=
  if path ≠ "" then env.abspath path else selfPath

/-- `NL5_dll.get_license`: resolve the license file (default extension
`.nll`, default directory the dll's own), call `NL5_GetLicense`; a negative
status raises `NL5LicenseException`, otherwise `valid = not bool(retval)`. -/
def get_license (e : Engine) (selfPath : String) (env : Env)
    (name path : String) : Except Exc Bool × Log :=
  let lic_file := osJoin (licenseDir selfPath env path) (withExt ".nll" name)
  let retval := e.NL5_GetLicense lic_file
  if retval < 0 then
    (.error ⟨.license, "License does not have DLL option activated."⟩,
      [(.NL5_GetLicense lic_file, retval)])
  else
    (.ok (decide (retval = 0)), [(.NL5_GetLicense lic_file, retval)])

/-- `NL5_dll.open` (`open` is a Lean keyword, hence the tick).  Closes any
previously open document first (discarding `NL5_Close`'s status), resolves
the circuit file name, and stores the new handle on success.  Returns the
outcome, the new `_ncir`, and the log of foreign calls. -/
def open' (e : Engine) (env : Env) (ncir : Int) (name path : String) :
    Except Exc Unit × Int × Log :=
  let closeLog : Log := if ncir ≥ 0 then [(.NL5_Close ncir, e.NL5_Close ncir)] else []
  let ncir1 : Int := if ncir ≥ 0 then -1 else ncir
  let cir_file := osJoin (resolveDir env path) (withExt ".nl5" name)
  let n := e.NL5_Open cir_file
  if n ≥ 0 then (.ok (), n, closeLog ++ [(.NL5_Open cir_file, n)])
  else
    (.error ⟨.openErr, "Error opening NL5 circuit"⟩, ncir1,
      closeLog ++ [(.NL5_Open cir_file, n)])

/-- `NL5_dll.close`.  The source calls `NL5_Close` (discarding its status)
but never assigns `_ncir`, so the returned state equals the input state. -/
def close (e : Engine) (ncir : Int) : Except Exc Unit × Int × Log :=
  if ncir ≥ 0 then (.ok (), ncir, [(.NL5_Close ncir, e.NL5_Close ncir)])
  else (.error ⟨.openErr, notOpenedMsg⟩, ncir, [])

/-- `NL5_dll.save`. -/
def save (e : Engine) (ncir : Int) : Except Exc Unit × Log :=
  requireOpen ncir notOpenedMsg <|
    checkCall (.NL5_Save ncir) (e.NL5_Save ncir) .save
      "Error trying to save the schematic circuit file." ()

/-- `NL5_dll.save_as`. -/
def save_as (e : Engine) (env : Env) (ncir : Int) (name path : String) :
    Except Exc Unit × Log :=
  let name1 := withExt ".nl5" name
  let cir_file := osJoin (resolveDir env path) name1
  requireOpen ncir notOpenedMsg <|
    checkCall (.NL5_SaveAs ncir cir_file) (e.NL5_SaveAs ncir cir_file) .save
      ("Error trying to save the schematic circuit file as " ++ name1 ++ ".") ()

/-- `NL5_dll.get_value`. -/
def get_value (e : Engine) (ncir : Int) (name : String) : Except Exc Rat × Log :=
  requireOpen ncir openMsg <|
    let rv := e.NL5_GetValue ncir name
    checkCall (.NL5_GetValue ncir name) rv.1 .value (paramMsg name) rv.2

/-- `NL5_dll.set_value`. -/
def set_value (e : Engine) (ncir : Int) (name : String) (v : Rat) :
    Except Exc Unit × Log :=
  requireOpen ncir openMsg <|
    checkCall (.NL5_SetValue ncir name v) (e.NL5_SetValue ncir name v) .value
      (paramMsg name) ()

/-- `NL5_dll.get_text` (`buf_size` defaults to 256 at the call sites). -/
def get_text (e : Engine) (ncir : Int) (name : String) (buf_size : Int) :
    Except Exc String × Log :=
  requireOpen ncir openMsg <|
    let rv := e.NL5_GetText ncir name buf_size
    checkCall (.NL5_GetText ncir name buf_size) rv.1 .value (paramMsg name) rv.2

/-- `NL5_dll.set_text`. -/
def set_text (e : Engine) (ncir : Int) (name text : String) :
    Except Exc Unit × Log :=
  requireOpen ncir openMsg <|
    checkCall (.NL5_SetText ncir name text) (e.NL5_SetText ncir name text) .value
      (paramMsg name) ()

/-- The `NL5ParamException` message for an unresolved parameter. -/
def noParamMsg (name : String) : String :=
  "Parameter " ++ name ++ " does not exist in circuit."

/-- `NL5_dll.get_parameter_value`. -/
def get_parameter_value (e : Engine) (ncir : Int) (name : String) :
    Except Exc Rat × Log :=
  requireOpen ncir openMsg <|
    resolveThen (.NL5_GetParam ncir name) (e.NL5_GetParam ncir name) .param
      (noParamMsg name) fun npar =>
        let rv := e.NL5_GetParamValue ncir npar
        checkCall (.NL5_GetParamValue ncir npar) rv.1 .value (paramMsg name) rv.2

/-- `NL5_dll.set_parameter_value`. -/
def set_parameter_value (e : Engine) (ncir : Int) (name : String) (v : Rat) :
    Except Exc Unit × Log :=
  requireOpen ncir openMsg <|
    resolveThen (.NL5_GetParam ncir name) (e.NL5_GetParam ncir name) .param
      (noParamMsg name) fun npar =>
        checkCall (.NL5_SetParamValue ncir npar v) (e.NL5_SetParamValue ncir npar v)
          .value (paramMsg name) ()

/-- `NL5_dll.get_parameter_text`. -/
def get_parameter_text (e : Engine) (ncir : Int) (name : String) (buf_size : Int) :
    Except Exc String × Log :=
  requireOpen ncir openMsg <|
    resolveThen (.NL5_GetParam ncir name) (e.NL5_GetParam ncir name) .param
      (noParamMsg name) fun npar =>
        let rv := e.NL5_GetParamText ncir npar buf_size
        checkCall (.NL5_GetParamText ncir npar buf_size) rv.1 .value (paramMsg name) rv.2

/-- `NL5_dll.set_parameter_text`. -/
def set_parameter_text (e : Engine) (ncir : Int) (name text : String) :
    Except Exc Unit × Log :=
  requireOpen ncir openMsg <|
    resolveThen (.NL5_GetParam ncir name) (e.NL5_GetParam ncir name) .param
      (noParamMsg name) fun npar =>
        checkCall (.NL5_SetParamText ncir npar text) (e.NL5_SetParamText ncir npar text)
          .value (paramMsg name) ()

/-- `NL5_dll.add_voltage_trace`. -/
def add_voltage_trace (e : Engine) (ncir : Int) (name : String) :
    Except Exc Unit × Log :=
  requireOpen ncir openMsg <|
    checkCall (.NL5_AddVTrace ncir name) (e.NL5_AddVTrace ncir name) .trace
      ("Problem trying to add voltage trace for component " ++ name ++ ".") ()

/-- `NL5_dll.add_current_trace`. -/
def add_current_trace (e : Engine) (ncir : Int) (name : String) :
    Except Exc Unit × Log :=
  requireOpen ncir openMsg <|
    checkCall (.NL5_AddITrace ncir name) (e.NL5_AddITrace ncir name) .trace
      ("Problem trying to add current trace for component " ++ name ++ ".") ()

/-- `NL5_dll.add_power_trace`. -/
def add_power_trace (e : Engine) (ncir : Int) (name : String) :
    Except Exc Unit × Log :=
  requireOpen ncir openMsg <|
    checkCall (.NL5_AddPTrace ncir name) (e.NL5_AddPTrace ncir name) .trace
      ("Problem trying to add power trace for component " ++ name ++ ".") ()

/-- `NL5_dll.add_variable_trace`. -/
def add_variable_trace (e : Engine) (ncir : Int) (name : String) :
    Except Exc Unit × Log :=
  requireOpen ncir openMsg <|
    checkCall (.NL5_AddVarTrace ncir name) (e.NL5_AddVarTrace ncir name) .trace
      ("Problem trying to add trace for variable " ++ name ++ ".") ()

/-- `NL5_dll.add_function_trace`. -/
def add_function_trace (e : Engine) (ncir : Int) (text : String) :
    Except Exc Unit × Log :=
  requireOpen ncir openMsg <|
    checkCall (.NL5_AddFuncTrace ncir text) (e.NL5_AddFuncTrace ncir text) .trace
      ("Problem trying to add function trace " ++ text ++ ".") ()

/-- `NL5_dll.delete_trace`. -/
def delete_trace (e : Engine) (ncir : Int) (name : String) :
    Except Exc Unit × Log :=
  requireOpen ncir openMsg <|
    resolveThen (.NL5_GetTrace ncir name) (e.NL5_GetTrace ncir name) .trace
      (noTraceMsg name) fun ntrace =>
        checkCall (.NL5_DeleteTrace ncir ntrace) (e.NL5_DeleteTrace ncir ntrace)
          .value ("Problem trying to delete trace " ++ name ++ ".") ()

/-- `NL5_dll.set_input_value`.  The source overwrites the caller's `v` with
a fresh `ct.c_double()` (value `0.0`) before the foreign call, so `0` is
what crosses the boundary. -/
def set_input_value (e : Engine) (ncir : Int) (name : String) (v : Rat) :
    Except Exc Unit × Log :=
  requireOpen ncir openMsg <|
    resolveThen (.NL5_GetInput ncir name) (e.NL5_GetInput ncir name) .trace
      (noTraceMsg name) fun nin =>
        let v := (0 : Rat)
        checkCall (.NL5_SetInputValue ncir nin v) (e.NL5_SetInputValue ncir nin v)
          .value ("Input " ++ name ++ " not valid.") ()

/-- `NL5_dll.set_input_logical_value`.  After `NL5_GetInput` resolves, the
source overwrites `v` with a fresh `ct.c_double()` and then evaluates
`int(v)` on it, which raises builtin `ValueError` (a `c_double` has no
integer conversion): `NL5_SetInputLogicalValue` is never invoked. -/
def set_input_logical_value (e : Engine) (ncir : Int) (name : String) (v : Bool) :
    Except Exc Unit × Log :=
  requireOpen ncir openMsg <|
    resolveThen (.NL5_GetInput ncir name) (e.NL5_GetInput ncir name) .trace
      (noTraceMsg name) fun _ =>
        (.error ⟨.pyValueError,
          "invalid literal for int() with base 10: b'\\x00\\x00\\x00\\x00\\x00\\x00\\x00\\x00'"⟩,
          [])

/-- `NL5_dll.get_output_value`. -/
def get_output_value (e : Engine) (ncir : Int) (name : String) :
    Except Exc Rat × Log :=
  requireOpen ncir openMsg <|
    resolveThen (.NL5_GetOutput ncir name) (e.NL5_GetOutput ncir name) .trace
      (noTraceMsg name) fun nout =>
        let rv := e.NL5_GetOutputValue ncir nout
        checkCall (.NL5_GetOutputValue ncir nout) rv.1 .value
          ("Output " ++ name ++ " not valid.") rv.2

/-- `NL5_dll.get_output_logical_value`.  After `NL5_GetOutput` resolves, the
source passes a `ct.c_double()` where the declared argtype is
`POINTER(c_int)`, so ctypes raises `ArgumentError` at the call:
`NL5_GetOutputLogicalValue` is never actually invoked. -/
def get_output_logical_value (e : Engine) (ncir : Int) (name : String) :
    Except Exc Bool × Log :=
  requireOpen ncir openMsg <|
    resolveThen (.NL5_GetOutput ncir name) (e.NL5_GetOutput ncir name) .trace
      (noTraceMsg name) fun _ =>
        (.error ⟨.pyArgumentError,
          "argument 3: TypeError: expected LP_c_int instance instead of c_double"⟩,
          [])

/-- `NL5_dll.set_step` (`abs(step)` is what crosses the boundary). -/
def set_step (e : Engine) (ncir : Int) (step : Rat) : Except Exc Unit × Log :=
  requireOpen ncir openMsg <|
    checkCall (.NL5_SetStep ncir |step|) (e.NL5_SetStep ncir |step|) .value
      "Step not valid." ()

/-- `NL5_dll.set_timeout` (`abs(t)` is what crosses the boundary). -/
def set_timeout (e : Engine) (ncir : Int) (t : Int) : Except Exc Unit × Log :=
  requireOpen ncir openMsg <|
    checkCall (.NL5_SetTimeout ncir |t|) (e.NL5_SetTimeout ncir |t|) .value
      "Timeout not valid." ()

/-- `NL5_dll.get_simulation_time`. -/
def get_simulation_time (e : Engine) (ncir : Int) : Except Exc Rat × Log :=
  requireOpen ncir openMsg <|
    let rv := e.NL5_GetSimulationTime ncir
    checkCall (.NL5_GetSimulationTime ncir) rv.1 .value
      "Error when reading simulation time." rv.2

/-- `NL5_dll.start`. -/
def start (e : Engine) (ncir : Int) : Except Exc Unit × Log :=
  requireOpen ncir openMsg <|
    checkCall (.NL5_Start ncir) (e.NL5_Start ncir) .start
      "Error trying to start simulation." ()

/-- `NL5_dll.simulate` (`abs(interval)` crosses the boundary; the failure
message renders the original, signed `interval`). -/
def simulate (e : Engine) (ncir : Int) (interval : Rat) : Except Exc Unit × Log :=
  requireOpen ncir openMsg <|
    checkCall (.NL5_Simulate ncir |interval|) (e.NL5_Simulate ncir |interval|) .start
      ("Error trying to start simulation with interval=" ++ ratStr interval ++ ".") ()

/-- `NL5_dll.simulate_interval` (as `simulate`). -/
def simulate_interval (e : Engine) (ncir : Int) (interval : Rat) :
    Except Exc Unit × Log :=
  requireOpen ncir openMsg <|
    checkCall (.NL5_SimulateInterval ncir |interval|)
      (e.NL5_SimulateInterval ncir |interval|) .start
      ("Error trying to start simulation with interval=" ++ ratStr interval ++ ".") ()

/-- `NL5_dll.simulate_step`. -/
def simulate_step (e : Engine) (ncir : Int) : Except Exc Unit × Log :=
  requireOpen ncir openMsg <|
    checkCall (.NL5_SimulateStep ncir) (e.NL5_SimulateStep ncir) .start
      "Error trying to perform one simulation step." ()

/-- `NL5_dll.save_ic`. -/
def save_ic (e : Engine) (ncir : Int) : Except Exc Unit × Log :=
  requireOpen ncir openMsg <|
    checkCall (.NL5_SaveIC ncir) (e.NL5_SaveIC ncir) .save
      "Error trying to save initial conditions into components." ()

/-- `NL5_dll.delete_old_data`. -/
def delete_old_data (e : Engine) (ncir : Int) : Except Exc Unit × Log :=
  requireOpen ncir openMsg <|
    checkCall (.NL5_DeleteOldData ncir) (e.NL5_DeleteOldData ncir) .delete
      "Error trying to delete old data." ()

/-- `NL5_dll.save_data` (default extension `.nlt`). -/
def save_data (e : Engine) (env : Env) (ncir : Int) (name path : String) :
    Except Exc Unit × Log :=
  let data_file := osJoin (resolveDir env path) (withExt ".nlt" name)
  requireOpen ncir openMsg <|
    checkCall (.NL5_SaveData ncir data_file) (e.NL5_SaveData ncir data_file) .save
      "Error trying to save NL5 data file." ()

/-- `NL5_dll.get_trace`: deliberately unimplemented in the source. -/
def get_trace : Except Exc Int × Log :=
  (.error ⟨.notImpl, "function get_trace not implemented!"⟩, [])

/-- `NL5_dll.get_data` (`abs(time)` crosses the boundary and is also what
the failure message renders). -/
def get_data (e : Engine) (ncir : Int) (name : String) (time : Rat) :
    Except Exc Rat × Log :=
  requireOpen ncir openMsg <|
    resolveThen (.NL5_GetTrace ncir name) (e.NL5_GetTrace ncir name) .trace
      (noTraceMsg name) fun ntrace =>
        let rv := e.NL5_GetData ncir ntrace |time|
        checkCall (.NL5_GetData ncir ntrace |time|) rv.1 .value
          ("Data point does not exist for abs(time)=" ++ ratStr |time| ++ " seconds.")
          rv.2

/-- `NL5_dll.get_last_data`. -/
def get_last_data (e : Engine) (ncir : Int) (name : String) :
    Except Exc (Rat × Rat) × Log :=
  requireOpen ncir openMsg <|
    resolveThen (.NL5_GetTrace ncir name) (e.NL5_GetTrace ncir name) .trace
      (noTraceMsg name) fun ntrace =>
        let rv := e.NL5_GetLastData ncir ntrace
        checkCall (.NL5_GetLastData ncir ntrace) rv.1 .value
          "Data point does not exist." (rv.2.1, rv.2.2)

/-- `NL5_dll.get_data_at`.  The caller-supplied index crosses the boundary
through ctypes `c_int`, i.e. wrapped to a signed 32-bit value (`cInt`). -/
def get_data_at (e : Engine) (ncir : Int) (name : String) (n : Int) :
    Except Exc (Rat × Rat) × Log :=
  requireOpen ncir openMsg <|
    resolveThen (.NL5_GetTrace ncir name) (e.NL5_GetTrace ncir name) .trace
      (noTraceMsg name) fun ntrace =>
        let rv := e.NL5_GetDataAt ncir ntrace (cInt n)
        checkCall (.NL5_GetDataAt ncir ntrace (cInt n)) rv.1 .value idxMsg
          (rv.2.1, rv.2.2)

/-- The `NL5ValueException` message of the data-size readers. -/
def sizeMsg (name : String) : String :=
  "Error occurred when trying to read data size of trace " ++ name ++ "."

/-- `NL5_dll.get_data_size`. -/
def get_data_size (e : Engine) (ncir : Int) (name : String) :
    Except Exc Int × Log :=
  requireOpen ncir openMsg <|
    resolveThen (.NL5_GetTrace ncir name) (e.NL5_GetTrace ncir name) .trace
      (noTraceMsg name) fun ntrace =>
        let size := e.NL5_GetDataSize ncir ntrace
        checkCall (.NL5_GetDataSize ncir ntrace) size .value (sizeMsg name) size

/-- `NL5_dll.simulate_ac`. -/
def simulate_ac (e : Engine) (ncir : Int) : Except Exc Unit × Log :=
  requireOpen ncir openMsg <|
    checkCall (.NL5_CalcAC ncir) (e.NL5_CalcAC ncir) .start
      "Error trying to start AC simulation" ()

/-- `NL5_dll.get_ac_trace`: deliberately unimplemented in the source. -/
def get_ac_trace : Except Exc Int × Log :=
  (.error ⟨.notImpl, "function get_ac_trace not implemented!"⟩, [])

/-- The `NL5ValueException` message of `get_ac_data_size` /
`get_freqmagphase_vectors` (note: the latter re-uses the transient wording). -/
def acSizeMsg (name : String) : String :=
  "Error occurred when trying to read AC data size of trace " ++ name ++ "."

/-- `NL5_dll.get_ac_data_size`. -/
def get_ac_data_size (e : Engine) (ncir : Int) (name : String) :
    Except Exc Int × Log :=
  requireOpen ncir openMsg <|
    resolveThen (.NL5_GetACTrace ncir name) (e.NL5_GetACTrace ncir name) .trace
      (noACTraceMsg name) fun ntrace =>
        let size := e.NL5_GetACDataSize ncir ntrace
        checkCall (.NL5_GetACDataSize ncir ntrace) size .value (acSizeMsg name) size

/-- `NL5_dll.get_ac_data_at`.  The caller-supplied index crosses the
boundary through ctypes `c_int`, as in `get_data_at`. -/
def get_ac_data_at (e : Engine) (ncir : Int) (name : String) (n : Int) :
    Except Exc (Rat × Rat × Rat) × Log :=
  requireOpen ncir openMsg <|
    resolveThen (.NL5_GetACTrace ncir name) (e.NL5_GetACTrace ncir name) .trace
      (noACTraceMsg name) fun ntrace =>
        let rv := e.NL5_GetACDataAt ncir ntrace (cInt n)
        checkCall (.NL5_GetACDataAt ncir ntrace (cInt n)) rv.1 .value idxMsg rv.2

/-- `NL5_dll.save_ac_data` (default extension `.nlf`). -/
def save_ac_data (e : Engine) (env : Env) (ncir : Int) (name path : String) :
    Except Exc Unit × Log :=
  let data_file := osJoin (resolveDir env path) (withExt ".nlf" name)
  requireOpen ncir openMsg <|
    checkCall (.NL5_SaveACData ncir data_file) (e.NL5_SaveACData ncir data_file) .save
      "Error trying to save NL5 data file." ()

/-- Loop body of `get_data_slice`: `for i in range(N)` starting at index `i`
with `k` iterations remaining; collects the sampled values in index order and
raises on the first negative status, performing no further calls. -/
def sliceLoop (e : Engine) (ncir ntrace : Int) (t_start t_step : Rat) :
    Nat → Nat → Except Exc (List Rat) × Log
  | _, 0 => (.ok [], [])
  | i, k + 1 =>
    let t := (i : Rat) * t_step + t_start
    let rv := e.NL5_GetData ncir ntrace |t|
    if rv.1 < 0 then
      (.error ⟨.value, "Data point does not exist for time=" ++ ratStr t ++ " seconds."⟩,
        [(.NL5_GetData ncir ntrace |t|, rv.1)])
    else
      let rest := sliceLoop e ncir ntrace t_start t_step (i + 1) k
      (rest.1.map (fun l => rv.2 :: l), (.NL5_GetData ncir ntrace |t|, rv.1) :: rest.2)

/-- `NL5_dll.get_data_slice` (`N = int((t_end - t_start) / t_step) + 1`;
for non-positive `N` the Python `np.zeros(N)` would fail, modelled here as
the empty sample list). -/
def get_data_slice (e : Engine) (ncir : Int) (name : String)
    (t_start t_end t_step : Rat) : Except Exc (List Rat) × Log :=
  requireOpen ncir openMsg <|
    resolveThen (.NL5_GetTrace ncir name) (e.NL5_GetTrace ncir name) .trace
      (noTraceMsg name) fun ntrace =>
        let N := pyInt ((t_end - t_start) / t_step) + 1
        sliceLoop e ncir ntrace t_start t_step 0 N.toNat

/-- Loop body of `get_timedata_vectors`: `for i in range(size)`, collecting
`(t, d)` pairs from `NL5_GetDataAt` in index order. -/
def timedataLoop (e : Engine) (ncir ntrace : Int) :
    Nat → Nat → Except Exc (List (Rat × Rat)) × Log
  | _, 0 => (.ok [], [])
  | i, k + 1 =>
    let rv := e.NL5_GetDataAt ncir ntrace (i : Int)
    if rv.1 < 0 then
      (.error ⟨.value, idxMsg⟩, [(.NL5_GetDataAt ncir ntrace (i : Int), rv.1)])
    else
      let rest := timedataLoop e ncir ntrace (i + 1) k
      (rest.1.map (fun l => (rv.2.1, rv.2.2) :: l),
        (.NL5_GetDataAt ncir ntrace (i : Int), rv.1) :: rest.2)

/-- `NL5_dll.get_timedata_vectors`: read the data size, then every point. -/
def get_timedata_vectors (e : Engine) (ncir : Int) (name : String) :
    Except Exc (List Rat × List Rat) × Log :=
  requireOpen ncir openMsg <|
    resolveThen (.NL5_GetTrace ncir name) (e.NL5_GetTrace ncir name) .trace
      (noTraceMsg name) fun ntrace =>
        let size := e.NL5_GetDataSize ncir ntrace
        if size < 0 then
          (.error ⟨.value, sizeMsg name⟩, [(.NL5_GetDataSize ncir ntrace, size)])
        else
          let rest := timedataLoop e ncir ntrace 0 size.toNat
          (rest.1.map (fun l => (l.map Prod.fst, l.map Prod.snd)),
            (.NL5_GetDataSize ncir ntrace, size) :: rest.2)

/-- Loop body of `get_freqmagphase_vectors`: `for i in range(size)`,
collecting `(f, m, p)` triples from `NL5_GetACDataAt` in index order. -/
def acLoop (e : Engine) (ncir ntrace : Int) :
    Nat → Nat → Except Exc (List (Rat × Rat × Rat)) × Log
  | _, 0 => (.ok [], [])
  | i, k + 1 =>
    let rv := e.NL5_GetACDataAt ncir ntrace (i : Int)
    if rv.1 < 0 then
      (.error ⟨.value, idxMsg⟩, [(.NL5_GetACDataAt ncir ntrace (i : Int), rv.1)])
    else
      let rest := acLoop e ncir ntrace (i + 1) k
      (rest.1.map (fun l => rv.2 :: l),
        (.NL5_GetACDataAt ncir ntrace (i : Int), rv.1) :: rest.2)

/-- `NL5_dll.get_freqmagphase_vectors`: read the AC data size, then every
point; with `log` set, frequency and magnitude are converted
(`np.log10(f)`, `20 * np.log10(m)`) after the loop. -/
def get_freqmagphase_vectors (e : Engine) (env : Env) (ncir : Int) (name : String)
    (log : Bool) : Except Exc (List Rat × List Rat × List Rat) × Log :=
  let run :=
    requireOpen ncir openMsg <|
      resolveThen (.NL5_GetACTrace ncir name) (e.NL5_GetACTrace ncir name) .trace
        (noACTraceMsg name) fun ntrace =>
          let size := e.NL5_GetACDataSize ncir ntrace
          if size < 0 then
            (.error ⟨.value, sizeMsg name⟩, [(.NL5_GetACDataSize ncir ntrace, size)])
          else
            let rest := acLoop e ncir ntrace 0 size.toNat
            (rest.1.map (fun l =>
                (l.map (fun x => x.1), l.map (fun x => x.2.1), l.map (fun x => x.2.2))),
              (.NL5_GetACDataSize ncir ntrace, size) :: rest.2)
  (run.1.map (fun v =>
      if log then (v.1.map env.log10, v.2.1.map (fun m => 20 * env.log10 m), v.2.2)
      else v),
    run.2)

/-- A concrete engine whose every entry point succeeds with status `0` and
writes `0` into every out-parameter; the base for concrete scenarios. -/
def engine0 : Engine where
  NL5_GetLicense := fun _ => 0
  NL5_Open := fun _ => 0
  NL5_Close := fun _ => 0
  NL5_Save := fun _ => 0
  NL5_SaveAs := fun _ _ => 0
  NL5_GetValue := fun _ _ => (0, 0)
  NL5_SetValue := fun _ _ _ => 0
  NL5_GetText := fun _ _ _ => (0, "")
  NL5_SetText := fun _ _ _ => 0
  NL5_GetParam := fun _ _ => 0
  NL5_GetParamValue := fun _ _ => (0, 0)
  NL5_SetParamValue := fun _ _ _ => 0
  NL5_GetParamText := fun _ _ _ => (0, "")
  NL5_SetParamText := fun _ _ _ => 0
  NL5_GetTrace := fun _ _ => 0
  NL5_AddVTrace := fun _ _ => 0
  NL5_AddITrace := fun _ _ => 0
  NL5_AddPTrace := fun _ _ => 0
  NL5_AddVarTrace := fun _ _ => 0
  NL5_AddFuncTrace := fun _ _ => 0
  NL5_DeleteTrace := fun _ _ => 0
  NL5_SetStep := fun _ _ => 0
  NL5_SetTimeout := fun _ _ => 0
  NL5_GetSimulationTime := fun _ => (0, 0)
  NL5_Start := fun _ => 0
  NL5_Simulate := fun _ _ => 0
  NL5_SimulateInterval := fun _ _ => 0
  NL5_SimulateStep := fun _ => 0
  NL5_SaveIC := fun _ => 0
  NL5_GetDataSize := fun _ _ => 0
  NL5_GetDataAt := fun _ _ _ => (0, 0, 0)
  NL5_GetLastData := fun _ _ => (0, 0, 0)
  NL5_GetData := fun _ _ _ => (0, 0)
  NL5_DeleteOldData := fun _ => 0
  NL5_SaveData := fun _ _ => 0
  NL5_GetInput := fun _ _ => 0
  NL5_SetInputValue := fun _ _ _ => 0
  NL5_SetInputLogicalValue := fun _ _ _ => 0
  NL5_GetOutput := fun _ _ => 0
  NL5_GetOutputValue := fun _ _ => (0, 0)
  NL5_GetOutputLogicalValue := fun _ _ => (0, 0)
  NL5_CalcAC := fun _ => 0
  NL5_GetACTrace := fun _ _ => 0
  NL5_GetACDataSize := fun _ _ => 0
  NL5_GetACDataAt := fun _ _ _ => (0, 0, 0, 0)
  NL5_SaveACData := fun _ _ => 0

/-- Whether a logged foreign call is an `NL5_Close` invocation. -/
def isClose : FCall → Bool
  | .NL5_Close _ => true
  | _ => false

/-- `engine0` with `NL5_Close` failing (status `-1`). -/
def closeFail : Engine := { engine0 with NL5_Close := fun _ => -1 }

/-- `engine0` with one trace (handle `0`) holding 3 recorded data points:
`NL5_GetDataAt` succeeds exactly on indices `0 ≤ n < 3`, returning time `n`
and value `0`. -/
def dataEngine : Engine :=
  { engine0 with
    NL5_GetDataSize := fun _ _ => 3
    NL5_GetDataAt := fun _ _ n => (if 0 ≤ n ∧ n < 3 then 0 else -1, (n : Rat), 0) }

/-- The claim C3 propagation policy for one method execution: every foreign
call whose status is negative is the last call the method performed, and the
method raised an exception (nothing is swallowed or retried). -/
def raisesAtSite (r : Except Exc α) : Log → Prop
  | [] => True
  | p :: rest =>
      (p.2 < 0 → rest = [] ∧ ∃ m, r = Except.error m) ∧ raisesAtSite r rest

/-- As `raisesAtSite`, except that a negative status returned by `NL5_Close`
is exempt: the source discards it (in `open` and in `close`). -/
def raisesAtSiteExceptClose (r : Except Exc α) : Log → Prop
  | [] => True
  | p :: rest =>
      (p.2 < 0 → (∃ n, p.1 = FCall.NL5_Close n) ∨ (rest = [] ∧ ∃ m, r = Except.error m)) ∧
        raisesAtSiteExceptClose r rest

theorem raisesAtSite.exceptClose {r : Except Exc α} :
    ∀ {l : Log}, raisesAtSite r l → raisesAtSiteExceptClose r l
  | [], _ => trivial
  | _ :: _, h => ⟨fun hneg => Or.inr (h.1 hneg), h.2.exceptClose⟩

theorem raisesAtSite_requireOpen {b : Except Exc α × Log} (ncir : Int) (msg : String)
    (h : raisesAtSite b.1 b.2) :
    raisesAtSite (requireOpen ncir msg b).1 (requireOpen ncir msg b).2 := by
  unfold requireOpen
  split
  · exact h
  · trivial

theorem raisesAtSite_checkCall (c : FCall) (r : Int) (k : ErrKind) (msg : String)
    (val : α) :
    raisesAtSite (checkCall c r k msg val).1 (checkCall c r k msg val).2 := by
  unfold checkCall
  split
  · exact ⟨fun _ => ⟨rfl, _, rfl⟩, trivial⟩
  · exact ⟨fun hneg => absurd hneg (by assumption), trivial⟩

theorem raisesAtSite_resolveThen (c : FCall) (h : Int) (k : ErrKind) (msg : String)
    {body : Int → Except Exc α × Log}
    (hb : ∀ n, n ≥ 0 → raisesAtSite (body n).1 (body n).2) :
    raisesAtSite (resolveThen c h k msg body).1 (resolveThen c h k msg body).2 := by
  unfold resolveThen
  split
  · exact ⟨fun hneg => absurd hneg (by omega), hb h (by assumption)⟩
  · exact ⟨fun _ => ⟨rfl, _, rfl⟩, trivial⟩

theorem raisesAtSite_map {r : Except Exc α} (f : α → β) :
    ∀ {l : Log}, raisesAtSite r l → raisesAtSite (r.map f) l
  | [], _ => trivial
  | _ :: _, h =>
      ⟨fun hneg => ⟨(h.1 hneg).1, by
        obtain ⟨m, hm⟩ := (h.1 hneg).2
        exact ⟨m, by simp [hm, Except.map]⟩⟩,
        raisesAtSite_map f h.2⟩

theorem raisesAtSite_cons_nonneg {r : Except Exc α} {l : Log} (p : FCall × Int)
    (hp : 0 ≤ p.2) (h : raisesAtSite r l) : raisesAtSite r (p :: l) :=
  ⟨fun hneg => absurd hneg (by omega), h⟩

theorem ras_get_license (e : Engine) (sp : String) (env : Env) (name path : String) :
    raisesAtSite (get_license e sp env name path).1 (get_license e sp env name path).2 := by
  unfold get_license
  dsimp only
  split
  · exact ⟨fun _ => ⟨rfl, _, rfl⟩, trivial⟩
  · exact ⟨fun hneg => absurd hneg (by assumption), trivial⟩

theorem ras_save (e : Engine) (ncir : Int) :
    raisesAtSite (save e ncir).1 (save e ncir).2 :=
  raisesAtSite_requireOpen _ _ (raisesAtSite_checkCall _ _ _ _ _)

theorem ras_save_as (e : Engine) (env : Env) (ncir : Int) (name path : String) :
    raisesAtSite (save_as e env ncir name path).1 (save_as e env ncir name path).2 :=
  raisesAtSite_requireOpen _ _ (raisesAtSite_checkCall _ _ _ _ _)

theorem ras_get_value (e : Engine) (ncir : Int) (name : String) :
    raisesAtSite (get_value e ncir name).1 (get_value e ncir name).2 :=
  raisesAtSite_requireOpen _ _ (raisesAtSite_checkCall _ _ _ _ _)

theorem ras_set_value (e : Engine) (ncir : Int) (name : String) (v : Rat) :
    raisesAtSite (set_value e ncir name v).1 (set_value e ncir name v).2 :=
  raisesAtSite_requireOpen _ _ (raisesAtSite_checkCall _ _ _ _ _)

theorem ras_get_text (e : Engine) (ncir : Int) (name : String) (buf_size : Int) :
    raisesAtSite (get_text e ncir name buf_size).1 (get_text e ncir name buf_size).2 :=
  raisesAtSite_requireOpen _ _ (raisesAtSite_checkCall _ _ _ _ _)

theorem ras_set_text (e : Engine) (ncir : Int) (name text : String) :
    raisesAtSite (set_text e ncir name text).1 (set_text e ncir name text).2 :=
  raisesAtSite_requireOpen _ _ (raisesAtSite_checkCall _ _ _ _ _)

theorem ras_get_parameter_value (e : Engine) (ncir : Int) (name : String) :
    raisesAtSite (get_parameter_value e ncir name).1 (get_parameter_value e ncir name).2 :=
  raisesAtSite_requireOpen _ _ (raisesAtSite_resolveThen _ _ _ _
    fun _ _ => raisesAtSite_checkCall _ _ _ _ _)

theorem ras_set_parameter_value (e : Engine) (ncir : Int) (name : String) (v : Rat) :
    raisesAtSite (set_parameter_value e ncir name v).1 (set_parameter_value e ncir name v).2 :=
  raisesAtSite_requireOpen _ _ (raisesAtSite_resolveThen _ _ _ _
    fun _ _ => raisesAtSite_checkCall _ _ _ _ _)

theorem ras_get_parameter_text (e : Engine) (ncir : Int) (name : String) (buf_size : Int) :
    raisesAtSite (get_parameter_text e ncir name buf_size).1
      (get_parameter_text e ncir name buf_size).2 :=
  raisesAtSite_requireOpen _ _ (raisesAtSite_resolveThen _ _ _ _
    fun _ _ => raisesAtSite_checkCall _ _ _ _ _)

theorem ras_set_parameter_text (e : Engine) (ncir : Int) (name text : String) :
    raisesAtSite (set_parameter_text e ncir name text).1
      (set_parameter_text e ncir name text).2 :=
  raisesAtSite_requireOpen _ _ (raisesAtSite_resolveThen _ _ _ _
    fun _ _ => raisesAtSite_checkCall _ _ _ _ _)

theorem ras_add_voltage_trace (e : Engine) (ncir : Int) (name : String) :
    raisesAtSite (add_voltage_trace e ncir name).1 (add_voltage_trace e ncir name).2 :=
  raisesAtSite_requireOpen _ _ (raisesAtSite_checkCall _ _ _ _ _)

theorem ras_add_current_trace (e : Engine) (ncir : Int) (name : String) :
    raisesAtSite (add_current_trace e ncir name).1 (add_current_trace e ncir name).2 :=
  raisesAtSite_requireOpen _ _ (raisesAtSite_checkCall _ _ _ _ _)

theorem ras_add_power_trace (e : Engine) (ncir : Int) (name : String) :
    raisesAtSite (add_power_trace e ncir name).1 (add_power_trace e ncir name).2 :=
  raisesAtSite_requireOpen _ _ (raisesAtSite_checkCall _ _ _ _ _)

theorem ras_add_variable_trace (e : Engine) (ncir : Int) (name : String) :
    raisesAtSite (add_variable_trace e ncir name).1 (add_variable_trace e ncir name).2 :=
  raisesAtSite_requireOpen _ _ (raisesAtSite_checkCall _ _ _ _ _)

theorem ras_add_function_trace (e : Engine) (ncir : Int) (text : String) :
    raisesAtSite (add_function_trace e ncir text).1 (add_function_trace e ncir text).2 :=
  raisesAtSite_requireOpen _ _ (raisesAtSite_checkCall _ _ _ _ _)

theorem ras_delete_trace (e : Engine) (ncir : Int) (name : String) :
    raisesAtSite (delete_trace e ncir name).1 (delete_trace e ncir name).2 :=
  raisesAtSite_requireOpen _ _ (raisesAtSite_resolveThen _ _ _ _
    fun _ _ => raisesAtSite_checkCall _ _ _ _ _)

theorem ras_set_input_value (e : Engine) (ncir : Int) (name : String) (v : Rat) :
    raisesAtSite (set_input_value e ncir name v).1 (set_input_value e ncir name v).2 :=
  raisesAtSite_requireOpen _ _ (raisesAtSite_resolveThen _ _ _ _
    fun _ _ => raisesAtSite_checkCall _ _ _ _ _)

theorem ras_set_input_logical_value (e : Engine) (ncir : Int) (name : String) (v : Bool) :
    raisesAtSite (set_input_logical_value e ncir name v).1
      (set_input_logical_value e ncir name v).2 :=
  raisesAtSite_requireOpen _ _ (raisesAtSite_resolveThen _ _ _ _ fun _ _ => trivial)

theorem ras_get_output_value (e : Engine) (ncir : Int) (name : String) :
    raisesAtSite (get_output_value e ncir name).1 (get_output_value e ncir name).2 :=
  raisesAtSite_requireOpen _ _ (raisesAtSite_resolveThen _ _ _ _
    fun _ _ => raisesAtSite_checkCall _ _ _ _ _)

theorem ras_get_output_logical_value (e : Engine) (ncir : Int) (name : String) :
    raisesAtSite (get_output_logical_value e ncir name).1
      (get_output_logical_value e ncir name).2 :=
  raisesAtSite_requireOpen _ _ (raisesAtSite_resolveThen _ _ _ _ fun _ _ => trivial)

theorem ras_set_step (e : Engine) (ncir : Int) (step : Rat) :
    raisesAtSite (set_step e ncir step).1 (set_step e ncir step).2 :=
  raisesAtSite_requireOpen _ _ (raisesAtSite_checkCall _ _ _ _ _)

theorem ras_set_timeout (e : Engine) (ncir : Int) (t : Int) :
    raisesAtSite (set_timeout e ncir t).1 (set_timeout e ncir t).2 :=
  raisesAtSite_requireOpen _ _ (raisesAtSite_checkCall _ _ _ _ _)

theorem ras_get_simulation_time (e : Engine) (ncir : Int) :
    raisesAtSite (get_simulation_time e ncir).1 (get_simulation_time e ncir).2 :=
  raisesAtSite_requireOpen _ _ (raisesAtSite_checkCall _ _ _ _ _)

theorem ras_start (e : Engine) (ncir : Int) :
    raisesAtSite (start e ncir).1 (start e ncir).2 :=
  raisesAtSite_requireOpen _ _ (raisesAtSite_checkCall _ _ _ _ _)

theorem ras_simulate (e : Engine) (ncir : Int) (interval : Rat) :
    raisesAtSite (simulate e ncir interval).1 (simulate e ncir interval).2 :=
  raisesAtSite_requireOpen _ _ (raisesAtSite_checkCall _ _ _ _ _)

theorem ras_simulate_interval (e : Engine) (ncir : Int) (interval : Rat) :
    raisesAtSite (simulate_interval e ncir interval).1 (simulate_interval e ncir interval).2 :=
  raisesAtSite_requireOpen _ _ (raisesAtSite_checkCall _ _ _ _ _)

theorem ras_simulate_step (e : Engine) (ncir : Int) :
    raisesAtSite (simulate_step e ncir).1 (simulate_step e ncir).2 :=
  raisesAtSite_requireOpen _ _ (raisesAtSite_checkCall _ _ _ _ _)

theorem ras_save_ic (e : Engine) (ncir : Int) :
    raisesAtSite (save_ic e ncir).1 (save_ic e ncir).2 :=
  raisesAtSite_requireOpen _ _ (raisesAtSite_checkCall _ _ _ _ _)

theorem ras_delete_old_data (e : Engine) (ncir : Int) :
    raisesAtSite (delete_old_data e ncir).1 (delete_old_data e ncir).2 :=
  raisesAtSite_requireOpen _ _ (raisesAtSite_checkCall _ _ _ _ _)

theorem ras_save_data (e : Engine) (env : Env) (ncir : Int) (name path : String) :
    raisesAtSite (save_data e env ncir name path).1 (save_data e env ncir name path).2 :=
  raisesAtSite_requireOpen _ _ (raisesAtSite_checkCall _ _ _ _ _)

theorem ras_get_trace : raisesAtSite get_trace.1 get_trace.2 := trivial

theorem ras_get_data (e : Engine) (ncir : Int) (name : String) (time : Rat) :
    raisesAtSite (get_data e ncir name time).1 (get_data e ncir name time).2 :=
  raisesAtSite_requireOpen _ _ (raisesAtSite_resolveThen _ _ _ _
    fun _ _ => raisesAtSite_checkCall _ _ _ _ _)

theorem ras_get_last_data (e : Engine) (ncir : Int) (name : String) :
    raisesAtSite (get_last_data e ncir name).1 (get_last_data e ncir name).2 :=
  raisesAtSite_requireOpen _ _ (raisesAtSite_resolveThen _ _ _ _
    fun _ _ => raisesAtSite_checkCall _ _ _ _ _)

theorem ras_get_data_at (e : Engine) (ncir : Int) (name : String) (n : Int) :
    raisesAtSite (get_data_at e ncir name n).1 (get_data_at e ncir name n).2 :=
  raisesAtSite_requireOpen _ _ (raisesAtSite_resolveThen _ _ _ _
    fun _ _ => raisesAtSite_checkCall _ _ _ _ _)

theorem ras_get_data_size (e : Engine) (ncir : Int) (name : String) :
    raisesAtSite (get_data_size e ncir name).1 (get_data_size e ncir name).2 :=
  raisesAtSite_requireOpen _ _ (raisesAtSite_resolveThen _ _ _ _
    fun _ _ => raisesAtSite_checkCall _ _ _ _ _)

theorem ras_simulate_ac (e : Engine) (ncir : Int) :
    raisesAtSite (simulate_ac e ncir).1 (simulate_ac e ncir).2 :=
  raisesAtSite_requireOpen _ _ (raisesAtSite_checkCall _ _ _ _ _)

theorem ras_get_ac_trace : raisesAtSite get_ac_trace.1 get_ac_trace.2 := trivial

theorem ras_get_ac_data_size (e : Engine) (ncir : Int) (name : String) :
    raisesAtSite (get_ac_data_size e ncir name).1 (get_ac_data_size e ncir name).2 :=
  raisesAtSite_requireOpen _ _ (raisesAtSite_resolveThen _ _ _ _
    fun _ _ => raisesAtSite_checkCall _ _ _ _ _)

theorem ras_get_ac_data_at (e : Engine) (ncir : Int) (name : String) (n : Int) :
    raisesAtSite (get_ac_data_at e ncir name n).1 (get_ac_data_at e ncir name n).2 :=
  raisesAtSite_requireOpen _ _ (raisesAtSite_resolveThen _ _ _ _
    fun _ _ => raisesAtSite_checkCall _ _ _ _ _)

theorem ras_save_ac_data (e : Engine) (env : Env) (ncir : Int) (name path : String) :
    raisesAtSite (save_ac_data e env ncir name path).1 (save_ac_data e env ncir name path).2 :=
  raisesAtSite_requireOpen _ _ (raisesAtSite_checkCall _ _ _ _ _)

theorem ras_sliceLoop (e : Engine) (ncir ntrace : Int) (t_start t_step : Rat) :
    ∀ (k i : Nat),
      raisesAtSite (sliceLoop e ncir ntrace t_start t_step i k).1
        (sliceLoop e ncir ntrace t_start t_step i k).2
  | 0, _ => trivial
  | k + 1, i => by
    unfold sliceLoop
    dsimp only
    split
    · exact ⟨fun _ => ⟨rfl, _, rfl⟩, trivial⟩
    · exact raisesAtSite_cons_nonneg _ (by omega)
        (raisesAtSite_map _ (ras_sliceLoop e ncir ntrace t_start t_step k (i + 1)))

theorem ras_get_data_slice (e : Engine) (ncir : Int) (name : String)
    (t_start t_end t_step : Rat) :
    raisesAtSite (get_data_slice e ncir name t_start t_end t_step).1
      (get_data_slice e ncir name t_start t_end t_step).2 :=
  raisesAtSite_requireOpen _ _ (raisesAtSite_resolveThen _ _ _ _
    fun n _ => ras_sliceLoop e ncir n t_start t_step _ 0)

theorem ras_timedataLoop (e : Engine) (ncir ntrace : Int) :
    ∀ (k i : Nat),
      raisesAtSite (timedataLoop e ncir ntrace i k).1 (timedataLoop e ncir ntrace i k).2
  | 0, _ => trivial
  | k + 1, i => by
    unfold timedataLoop
    dsimp only
    split
    · exact ⟨fun _ => ⟨rfl, _, rfl⟩, trivial⟩
    · exact raisesAtSite_cons_nonneg _ (by omega)
        (raisesAtSite_map _ (ras_timedataLoop e ncir ntrace k (i + 1)))

theorem ras_get_timedata_vectors (e : Engine) (ncir : Int) (name : String) :
    raisesAtSite (get_timedata_vectors e ncir name).1 (get_timedata_vectors e ncir name).2 :=
  raisesAtSite_requireOpen _ _ (raisesAtSite_resolveThen _ _ _ _ fun n _ => by
    dsimp only
    split
    · exact ⟨fun _ => ⟨rfl, _, rfl⟩, trivial⟩
    · exact raisesAtSite_cons_nonneg _ (by omega)
        (raisesAtSite_map _ (ras_timedataLoop e ncir n _ 0)))

theorem ras_acLoop (e : Engine) (ncir ntrace : Int) :
    ∀ (k i : Nat),
      raisesAtSite (acLoop e ncir ntrace i k).1 (acLoop e ncir ntrace i k).2
  | 0, _ => trivial
  | k + 1, i => by
    unfold acLoop
    dsimp only
    split
    · exact ⟨fun _ => ⟨rfl, _, rfl⟩, trivial⟩
    · exact raisesAtSite_cons_nonneg _ (by omega)
        (raisesAtSite_map _ (ras_acLoop e ncir ntrace k (i + 1)))

theorem ras_get_freqmagphase_vectors (e : Engine) (env : Env) (ncir : Int)
    (name : String) (log : Bool) :
    raisesAtSite (get_freqmagphase_vectors e env ncir name log).1
      (get_freqmagphase_vectors e env ncir name log).2 :=
  raisesAtSite_map _ <|
    raisesAtSite_requireOpen _ _ (raisesAtSite_resolveThen _ _ _ _ fun n _ => by
      dsimp only
      split
      · exact ⟨fun _ => ⟨rfl, _, rfl⟩, trivial⟩
      · exact raisesAtSite_cons_nonneg _ (by omega)
          (raisesAtSite_map _ (ras_acLoop e ncir n _ 0)))

theorem rasec_open (e : Engine) (env : Env) (ncir : Int) (name path : String) :
    raisesAtSiteExceptClose (open' e env ncir name path).1
      (open' e env ncir name path).2.2 := by
  unfold open'
  dsimp only
  split <;> split
  all_goals
    simp only [List.cons_append, List.nil_append]
  · exact ⟨fun _ => Or.inl ⟨ncir, rfl⟩, ⟨fun hneg => absurd hneg (by omega), trivial⟩⟩
  · exact ⟨fun hneg => absurd hneg (by omega), trivial⟩
  · exact ⟨fun _ => Or.inl ⟨ncir, rfl⟩, ⟨fun _ => Or.inr ⟨rfl, _, rfl⟩, trivial⟩⟩
  · exact ⟨fun _ => Or.inr ⟨rfl, _, rfl⟩, trivial⟩

theorem rasec_close (e : Engine) (ncir : Int) :
    raisesAtSiteExceptClose (close e ncir).1 (close e ncir).2.2 := by
  unfold close
  split
  · exact ⟨fun _ => Or.inl ⟨ncir, rfl⟩, trivial⟩
  · trivial

/-- C1: every per-document operation of the client, invoked while
`_ncir = -1`, raises `NL5OpenException` (kind `openErr`; `save` and
`save_as` with their own copy-pasted message, every other method with the
standard one) and performs no foreign call at all: the outcome is the open
error and the call log is empty. -/
theorem closed_handle_raises_open_without_foreign_calls
    (e : Engine) (env : Env) (name text path : String)
    (v x t_start t_end t_step : Rat) (n t buf_size : Int) (b lg : Bool) :
    save e (-1) = (.error ⟨.openErr, notOpenedMsg⟩, [])
    ∧ save_as e env (-1) name path = (.error ⟨.openErr, notOpenedMsg⟩, [])
    ∧ get_value e (-1) name = (.error ⟨.openErr, openMsg⟩, [])
    ∧ set_value e (-1) name v = (.error ⟨.openErr, openMsg⟩, [])
    ∧ get_text e (-1) name buf_size = (.error ⟨.openErr, openMsg⟩, [])
    ∧ set_text e (-1) name text = (.error ⟨.openErr, openMsg⟩, [])
    ∧ get_parameter_value e (-1) name = (.error ⟨.openErr, openMsg⟩, [])
    ∧ set_parameter_value e (-1) name v = (.error ⟨.openErr, openMsg⟩, [])
    ∧ get_parameter_text e (-1) name buf_size = (.error ⟨.openErr, openMsg⟩, [])
    ∧ set_parameter_text e (-1) name text = (.error ⟨.openErr, openMsg⟩, [])
    ∧ add_voltage_trace e (-1) name = (.error ⟨.openErr, openMsg⟩, [])
    ∧ add_current_trace e (-1) name = (.error ⟨.openErr, openMsg⟩, [])
    ∧ add_power_trace e (-1) name = (.error ⟨.openErr, openMsg⟩, [])
    ∧ add_variable_trace e (-1) name = (.error ⟨.openErr, openMsg⟩, [])
    ∧ add_function_trace e (-1) text = (.error ⟨.openErr, openMsg⟩, [])
    ∧ delete_trace e (-1) name = (.error ⟨.openErr, openMsg⟩, [])
    ∧ set_input_value e (-1) name v = (.error ⟨.openErr, openMsg⟩, [])
    ∧ set_input_logical_value e (-1) name b = (.error ⟨.openErr, openMsg⟩, [])
    ∧ get_output_value e (-1) name = (.error ⟨.openErr, openMsg⟩, [])
    ∧ get_output_logical_value e (-1) name = (.error ⟨.openErr, openMsg⟩, [])
    ∧ set_step e (-1) x = (.error ⟨.openErr, openMsg⟩, [])
    ∧ set_timeout e (-1) t = (.error ⟨.openErr, openMsg⟩, [])
    ∧ get_simulation_time e (-1) = (.error ⟨.openErr, openMsg⟩, [])
    ∧ start e (-1) = (.error ⟨.openErr, openMsg⟩, [])
    ∧ simulate e (-1) x = (.error ⟨.openErr, openMsg⟩, [])
    ∧ simulate_interval e (-1) x = (.error ⟨.openErr, openMsg⟩, [])
    ∧ simulate_step e (-1) = (.error ⟨.openErr, openMsg⟩, [])
    ∧ save_ic e (-1) = (.error ⟨.openErr, openMsg⟩, [])
    ∧ delete_old_data e (-1) = (.error ⟨.openErr, openMsg⟩, [])
    ∧ save_data e env (-1) name path = (.error ⟨.openErr, openMsg⟩, [])
    ∧ get_data e (-1) name x = (.error ⟨.openErr, openMsg⟩, [])
    ∧ get_last_data e (-1) name = (.error ⟨.openErr, openMsg⟩, [])
    ∧ get_data_at e (-1) name n = (.error ⟨.openErr, openMsg⟩, [])
    ∧ get_data_size e (-1) name = (.error ⟨.openErr, openMsg⟩, [])
    ∧ simulate_ac e (-1) = (.error ⟨.openErr, openMsg⟩, [])
    ∧ get_ac_data_size e (-1) name = (.error ⟨.openErr, openMsg⟩, [])
    ∧ get_ac_data_at e (-1) name n = (.error ⟨.openErr, openMsg⟩, [])
    ∧ save_ac_data e env (-1) name path = (.error ⟨.openErr, openMsg⟩, [])
    ∧ get_data_slice e (-1) name t_start t_end t_step = (.error ⟨.openErr, openMsg⟩, [])
    ∧ get_timedata_vectors e (-1) name = (.error ⟨.openErr, openMsg⟩, [])
    ∧ get_freqmagphase_vectors e env (-1) name lg = (.error ⟨.openErr, openMsg⟩, []) := by
  and_intros <;> rfl

/-- C2 (code bug, demonstrated at the failing input): `close()` on an open
document (handle `5`) returns successfully but leaves the stored handle at
`5` — the source never assigns `_ncir = -1` — so a subsequent `save()`
reaches the engine (`NL5_Save(5)`) instead of raising `NL5OpenException`. -/
theorem close_leaves_handle_valid :
    (close engine0 5).1 = .ok ()
    ∧ (close engine0 5).2.1 = 5
    ∧ (close engine0 5).2.1 ≠ -1
    ∧ save engine0 5 = (.ok (), [(.NL5_Save 5, 0)]) :=
  ⟨rfl, rfl, by decide, rfl⟩

/-- C3 counterexample: with an engine whose `NL5_Close` returns `-1`,
`close()` on handle `0` performs a foreign call that returns a negative
status yet completes successfully — the status is discarded, violating the
claimed propagation policy. -/
theorem close_discards_negative_close_status :
    (close closeFail 0).1 = .ok ()
    ∧ (close closeFail 0).2.2 = [(.NL5_Close 0, -1)]
    ∧ ¬ raisesAtSite (close closeFail 0).1 (close closeFail 0).2.2 := by
  refine ⟨rfl, rfl, fun h => ?_⟩
  obtain ⟨m, hm⟩ := (h.1 (by decide)).2
  exact Except.noConfusion (show (Except.ok () : Except Exc Unit) = .error m from hm)

/-- C3 (amended): for every method of the client and every foreign call it
performs, a negative status is raised as an exception at the call site that
detected it — the offending call is the last call performed and the method
errors — except for `NL5_Close`, whose status `open()` and `close()`
discard.  (`get_error` / `get_info` return text, not a status;
`set_input_logical_value` and `get_output_logical_value` raise Python-level
errors after handle resolution and never reach their foreign entry point,
so no status arises there.) -/
theorem negative_status_raises_at_call_site_except_close
    (e : Engine) (env : Env) (sp : String) (ncir : Int) (name text path : String)
    (v x t_start t_end t_step : Rat) (n t buf_size : Int) (b lg : Bool) :
    raisesAtSiteExceptClose (open' e env ncir name path).1 (open' e env ncir name path).2.2
    ∧ raisesAtSiteExceptClose (close e ncir).1 (close e ncir).2.2
    ∧ raisesAtSite (get_license e sp env name path).1 (get_license e sp env name path).2
    ∧ raisesAtSite (save e ncir).1 (save e ncir).2
    ∧ raisesAtSite (save_as e env ncir name path).1 (save_as e env ncir name path).2
    ∧ raisesAtSite (get_value e ncir name).1 (get_value e ncir name).2
    ∧ raisesAtSite (set_value e ncir name v).1 (set_value e ncir name v).2
    ∧ raisesAtSite (get_text e ncir name buf_size).1 (get_text e ncir name buf_size).2
    ∧ raisesAtSite (set_text e ncir name text).1 (set_text e ncir name text).2
    ∧ raisesAtSite (get_parameter_value e ncir name).1 (get_parameter_value e ncir name).2
    ∧ raisesAtSite (set_parameter_value e ncir name v).1 (set_parameter_value e ncir name v).2
    ∧ raisesAtSite (get_parameter_text e ncir name buf_size).1
        (get_parameter_text e ncir name buf_size).2
    ∧ raisesAtSite (set_parameter_text e ncir name text).1
        (set_parameter_text e ncir name text).2
    ∧ raisesAtSite (add_voltage_trace e ncir name).1 (add_voltage_trace e ncir name).2
    ∧ raisesAtSite (add_current_trace e ncir name).1 (add_current_trace e ncir name).2
    ∧ raisesAtSite (add_power_trace e ncir name).1 (add_power_trace e ncir name).2
    ∧ raisesAtSite (add_variable_trace e ncir name).1 (add_variable_trace e ncir name).2
    ∧ raisesAtSite (add_function_trace e ncir text).1 (add_function_trace e ncir text).2
    ∧ raisesAtSite (delete_trace e ncir name).1 (delete_trace e ncir name).2
    ∧ raisesAtSite (set_input_value e ncir name v).1 (set_input_value e ncir name v).2
    ∧ raisesAtSite (set_input_logical_value e ncir name b).1
        (set_input_logical_value e ncir name b).2
    ∧ raisesAtSite (get_output_value e ncir name).1 (get_output_value e ncir name).2
    ∧ raisesAtSite (get_output_logical_value e ncir name).1
        (get_output_logical_value e ncir name).2
    ∧ raisesAtSite (set_step e ncir x).1 (set_step e ncir x).2
    ∧ raisesAtSite (set_timeout e ncir t).1 (set_timeout e ncir t).2
    ∧ raisesAtSite (get_simulation_time e ncir).1 (get_simulation_time e ncir).2
    ∧ raisesAtSite (start e ncir).1 (start e ncir).2
    ∧ raisesAtSite (simulate e ncir x).1 (simulate e ncir x).2
    ∧ raisesAtSite (simulate_interval e ncir x).1 (simulate_interval e ncir x).2
    ∧ raisesAtSite (simulate_step e ncir).1 (simulate_step e ncir).2
    ∧ raisesAtSite (save_ic e ncir).1 (save_ic e ncir).2
    ∧ raisesAtSite (delete_old_data e ncir).1 (delete_old_data e ncir).2
    ∧ raisesAtSite (save_data e env ncir name path).1 (save_data e env ncir name path).2
    ∧ raisesAtSite get_trace.1 get_trace.2
    ∧ raisesAtSite (get_data e ncir name x).1 (get_data e ncir name x).2
    ∧ raisesAtSite (get_last_data e ncir name).1 (get_last_data e ncir name).2
    ∧ raisesAtSite (get_data_at e ncir name n).1 (get_data_at e ncir name n).2
    ∧ raisesAtSite (get_data_size e ncir name).1 (get_data_size e ncir name).2
    ∧ raisesAtSite (simulate_ac e ncir).1 (simulate_ac e ncir).2
    ∧ raisesAtSite get_ac_trace.1 get_ac_trace.2
    ∧ raisesAtSite (get_ac_data_size e ncir name).1 (get_ac_data_size e ncir name).2
    ∧ raisesAtSite (get_ac_data_at e ncir name n).1 (get_ac_data_at e ncir name n).2
    ∧ raisesAtSite (save_ac_data e env ncir name path).1 (save_ac_data e env ncir name path).2
    ∧ raisesAtSite (get_data_slice e ncir name t_start t_end t_step).1
        (get_data_slice e ncir name t_start t_end t_step).2
    ∧ raisesAtSite (get_timedata_vectors e ncir name).1 (get_timedata_vectors e ncir name).2
    ∧ raisesAtSite (get_freqmagphase_vectors e env ncir name lg).1
        (get_freqmagphase_vectors e env ncir name lg).2 :=
  ⟨rasec_open e env ncir name path, rasec_close e ncir,
    ras_get_license e sp env name path, ras_save e ncir,
    ras_save_as e env ncir name path, ras_get_value e ncir name,
    ras_set_value e ncir name v, ras_get_text e ncir name buf_size,
    ras_set_text e ncir name text, ras_get_parameter_value e ncir name,
    ras_set_parameter_value e ncir name v, ras_get_parameter_text e ncir name buf_size,
    ras_set_parameter_text e ncir name text, ras_add_voltage_trace e ncir name,
    ras_add_current_trace e ncir name, ras_add_power_trace e ncir name,
    ras_add_variable_trace e ncir name, ras_add_function_trace e ncir text,
    ras_delete_trace e ncir name, ras_set_input_value e ncir name v,
    ras_set_input_logical_value e ncir name b, ras_get_output_value e ncir name,
    ras_get_output_logical_value e ncir name, ras_set_step e ncir x,
    ras_set_timeout e ncir t, ras_get_simulation_time e ncir, ras_start e ncir,
    ras_simulate e ncir x, ras_simulate_interval e ncir x, ras_simulate_step e ncir,
    ras_save_ic e ncir, ras_delete_old_data e ncir, ras_save_data e env ncir name path,
    ras_get_trace, ras_get_data e ncir name x, ras_get_last_data e ncir name,
    ras_get_data_at e ncir name n, ras_get_data_size e ncir name, ras_simulate_ac e ncir,
    ras_get_ac_trace, ras_get_ac_data_size e ncir name, ras_get_ac_data_at e ncir name n,
    ras_save_ac_data e env ncir name path,
    ras_get_data_slice e ncir name t_start t_end t_step,
    ras_get_timedata_vectors e ncir name,
    ras_get_freqmagphase_vectors e env ncir name lg⟩

/-- C4: `open(name)` while a document is open (handle `≥ 0`) calls
`NL5_Close` on the previous handle exactly once, before `NL5_Open`; with no
document open it never calls `NL5_Close`; and the stored handle becomes the
newly returned one whenever `NL5_Open` succeeds (otherwise it is `-1`, or
the untouched negative handle). -/
theorem open_closes_previous_exactly_once
    (e : Engine) (env : Env) (ncir : Int) (name path : String) :
    (open' e env ncir name path).2.2.map Prod.fst =
      (if ncir ≥ 0 then [FCall.NL5_Close ncir] else [])
        ++ [FCall.NL5_Open (osJoin (resolveDir env path) (withExt ".nl5" name))]
    ∧ ((open' e env ncir name path).2.2.countP fun p => isClose p.1) =
        (if ncir ≥ 0 then 1 else 0)
    ∧ (open' e env ncir name path).2.1 =
        (if e.NL5_Open (osJoin (resolveDir env path) (withExt ".nl5" name)) ≥ 0 then
          e.NL5_Open (osJoin (resolveDir env path) (withExt ".nl5" name))
        else if ncir ≥ 0 then -1 else ncir) := by
  unfold open'
  by_cases hc : ncir ≥ 0 <;>
    by_cases ho : e.NL5_Open (osJoin (resolveDir env path) (withExt ".nl5" name)) ≥ 0 <;>
      simp [hc, ho, isClose, List.countP_cons, List.countP_nil]

theorem checkCall_snd (c : FCall) (r : Int) (k : ErrKind) (msg : String) (val : α) :
    (checkCall c r k msg val).2 = [(c, r)] := by
  unfold checkCall
  split <;> rfl

theorem requireOpen_snd (ncir : Int) (msg : String) (b : Except Exc α × Log) :
    (requireOpen ncir msg b).2 = if ncir ≥ 0 then b.2 else [] := by
  unfold requireOpen
  split <;> rfl

theorem resolveThen_snd (c : FCall) (h : Int) (k : ErrKind) (msg : String)
    (body : Int → Except Exc α × Log) :
    (resolveThen c h k msg body).2 = if h ≥ 0 then (c, h) :: (body h).2 else [(c, h)] := by
  unfold resolveThen
  split <;> rfl

theorem pyEndswith_append (name ext : String) : pyEndswith (name ++ ext) ext = true := by
  unfold pyEndswith
  rw [String.data_append]
  exact List.isSuffixOf_iff_suffix.mpr (List.suffix_append _ _)

theorem cInt_eq_self {n : Int} (h1 : -2 ^ 31 ≤ n) (h2 : n < 2 ^ 31) : cInt n = n := by
  unfold cInt
  omega

/-- C5: file-name normalization appends the fixed extension exactly once.
`withExt ext name` (the transformation `open` / `save_as` apply with
`.nl5`, `save_data` with `.nlt`, `save_ac_data` with `.nlf`) leaves a name
that already ends in the extension unchanged, appends it exactly once
otherwise, always yields a name ending in the extension, and is idempotent
(never doubles).  The final conjuncts tie the normalized name to the file
argument each method actually passes across the foreign boundary. -/
theorem extension_appended_exactly_once
    (e : Engine) (env : Env) (ncir : Int) (name path : String) :
    (pyEndswith name ".nl5" = true → withExt ".nl5" name = name)
    ∧ (pyEndswith name ".nl5" = false → withExt ".nl5" name = name ++ ".nl5")
    ∧ pyEndswith (withExt ".nl5" name) ".nl5" = true
    ∧ withExt ".nl5" (withExt ".nl5" name) = withExt ".nl5" name
    ∧ (pyEndswith name ".nlt" = true → withExt ".nlt" name = name)
    ∧ (pyEndswith name ".nlt" = false → withExt ".nlt" name = name ++ ".nlt")
    ∧ pyEndswith (withExt ".nlt" name) ".nlt" = true
    ∧ withExt ".nlt" (withExt ".nlt" name) = withExt ".nlt" name
    ∧ (pyEndswith name ".nlf" = true → withExt ".nlf" name = name)
    ∧ (pyEndswith name ".nlf" = false → withExt ".nlf" name = name ++ ".nlf")
    ∧ pyEndswith (withExt ".nlf" name) ".nlf" = true
    ∧ withExt ".nlf" (withExt ".nlf" name) = withExt ".nlf" name
    ∧ FCall.NL5_Open (osJoin (resolveDir env path) (withExt ".nl5" name)) ∈
        (open' e env ncir name path).2.2.map Prod.fst
    ∧ (save_as e env ncir name path).2 =
        (if ncir ≥ 0 then
          [(FCall.NL5_SaveAs ncir (osJoin (resolveDir env path) (withExt ".nl5" name)),
            e.NL5_SaveAs ncir (osJoin (resolveDir env path) (withExt ".nl5" name)))]
        else [])
    ∧ (save_data e env ncir name path).2 =
        (if ncir ≥ 0 then
          [(FCall.NL5_SaveData ncir (osJoin (resolveDir env path) (withExt ".nlt" name)),
            e.NL5_SaveData ncir (osJoin (resolveDir env path) (withExt ".nlt" name)))]
        else [])
    ∧ (save_ac_data e env ncir name path).2 =
        (if ncir ≥ 0 then
          [(FCall.NL5_SaveACData ncir (osJoin (resolveDir env path) (withExt ".nlf" name)),
            e.NL5_SaveACData ncir (osJoin (resolveDir env path) (withExt ".nlf" name)))]
        else []) := by
  refine ⟨fun h => by simp [withExt, h], fun h => by simp [withExt, h], ?_, ?_,
    fun h => by simp [withExt, h], fun h => by simp [withExt, h], ?_, ?_,
    fun h => by simp [withExt, h], fun h => by simp [withExt, h], ?_, ?_, ?_, ?_, ?_, ?_⟩
  · by_cases h : pyEndswith name ".nl5" <;> simp [withExt, h, pyEndswith_append]
  · by_cases h : pyEndswith name ".nl5" <;> simp [withExt, h, pyEndswith_append]
  · by_cases h : pyEndswith name ".nlt" <;> simp [withExt, h, pyEndswith_append]
  · by_cases h : pyEndswith name ".nlt" <;> simp [withExt, h, pyEndswith_append]
  · by_cases h : pyEndswith name ".nlf" <;> simp [withExt, h, pyEndswith_append]
  · by_cases h : pyEndswith name ".nlf" <;> simp [withExt, h, pyEndswith_append]
  · by_cases hc : ncir ≥ 0 <;>
      by_cases ho : e.NL5_Open (osJoin (resolveDir env path) (withExt ".nl5" name)) ≥ 0 <;>
        simp [open', hc, ho]
  · simp [save_as, requireOpen_snd, checkCall_snd]
  · simp [save_data, requireOpen_snd, checkCall_snd]
  · simp [save_ac_data, requireOpen_snd, checkCall_snd]

/-- C6: `set_input_value(name, v)` ignores the caller-supplied `v`: the
method's entire behavior is identical for any two values, and when the
input resolves the value crossing the boundary in `NL5_SetInputValue` is
the literal `0` (the fresh `ct.c_double()` that overwrites `v`). -/
theorem set_input_value_passes_zero
    (e : Engine) (ncir : Int) (name : String) (v w : Rat) :
    set_input_value e ncir name v = set_input_value e ncir name w
    ∧ (set_input_value e ncir name v).2 =
        (if ncir ≥ 0 then
          if e.NL5_GetInput ncir name ≥ 0 then
            [(FCall.NL5_GetInput ncir name, e.NL5_GetInput ncir name),
              (FCall.NL5_SetInputValue ncir (e.NL5_GetInput ncir name) 0,
                e.NL5_SetInputValue ncir (e.NL5_GetInput ncir name) 0)]
          else [(FCall.NL5_GetInput ncir name, e.NL5_GetInput ncir name)]
        else []) := by
  refine ⟨rfl, ?_⟩
  simp only [set_input_value, requireOpen_snd, resolveThen_snd, checkCall_snd]

/-- C7: `get_license` raises `NL5LicenseException` exactly when
`NL5_GetLicense` returns a negative status, returns `true` exactly on
status `0`, and returns `false` exactly on a positive status. -/
theorem get_license_three_outcomes
    (e : Engine) (sp : String) (env : Env) (name path : String) :
    (get_license e sp env name path).1 =
      (if e.NL5_GetLicense (osJoin (licenseDir sp env path) (withExt ".nll" name)) < 0 then
        Except.error ⟨.license, "License does not have DLL option activated."⟩
      else
        .ok (decide (e.NL5_GetLicense
          (osJoin (licenseDir sp env path) (withExt ".nll" name)) = 0)))
    ∧ ((get_license e sp env name path).1 =
        .error ⟨.license, "License does not have DLL option activated."⟩ ↔
        e.NL5_GetLicense (osJoin (licenseDir sp env path) (withExt ".nll" name)) < 0)
    ∧ ((get_license e sp env name path).1 = .ok true ↔
        e.NL5_GetLicense (osJoin (licenseDir sp env path) (withExt ".nll" name)) = 0)
    ∧ ((get_license e sp env name path).1 = .ok false ↔
        0 < e.NL5_GetLicense (osJoin (licenseDir sp env path) (withExt ".nll" name))) := by
  rcases lt_trichotomy
      (e.NL5_GetLicense (osJoin (licenseDir sp env path) (withExt ".nll" name))) 0
    with h | h | h
  · simp [get_license, h, h.ne, not_lt.mpr h.le]
  · simp [get_license, h]
  · simp [get_license, h.ne', not_lt.mpr h.le, h]

/-- C8 counterexample: the index is marshalled through ctypes `c_int` and
silently wraps mod `2^32`.  On `dataEngine` — which satisfies the claim's
hypothesis (negative status exactly for out-of-range indices, size 3, open
document, valid trace) — `get_data_at` at the negative index `-(2^32)`
reaches the engine as index `0` and SUCCEEDS, refuting "raises a Value
error for every n < 0". -/
theorem get_data_at_wraps_large_negative_index :
    (-(2 ^ 32) : Int) < 0
    ∧ (∀ n : Int, (dataEngine.NL5_GetDataAt 0 0 n).1 < 0 ↔ (n < 0 ∨ 3 ≤ n))
    ∧ cInt (-(2 ^ 32)) = 0
    ∧ (get_data_at dataEngine 0 "V(out)" (-(2 ^ 32))).1 = .ok (0, 0) := by
  refine ⟨by norm_num, ?_, by decide, rfl⟩
  intro n
  simp only [dataEngine]
  split_ifs with h <;> simp <;> omega

/-- C8 (amended): with a document open, a trace resolving to a valid
handle, recorded data size `s` with `1 ≤ s ≤ 2^31 - 1`, and assuming the
engine's `NL5_GetDataAt` returns a negative status exactly for
out-of-range indices, `get_data_at` succeeds (with the engine's
`(time, value)` pair) at the boundary indices `0` and `s - 1`, and raises
`NL5ValueException` at `n = s` and at every `n < 0` within the signed
32-bit range; an index outside that range wraps (ctypes `c_int`
marshalling), so e.g. `n = -(2^32)` reaches the engine as `0`.
`get_data_size` reports exactly `s`. -/
theorem get_data_at_boundary
    (e : Engine) (st ntrace s : Int) (name : String)
    (hst : st ≥ 0) (htr : e.NL5_GetTrace st name = ntrace) (htr0 : ntrace ≥ 0)
    (hsz : e.NL5_GetDataSize st ntrace = s) (hs1 : 1 ≤ s) (hs31 : s ≤ 2 ^ 31 - 1)
    (hrange : ∀ n : Int, (e.NL5_GetDataAt st ntrace n).1 < 0 ↔ (n < 0 ∨ s ≤ n)) :
    (get_data_at e st name 0).1 =
      .ok ((e.NL5_GetDataAt st ntrace 0).2.1, (e.NL5_GetDataAt st ntrace 0).2.2)
    ∧ (get_data_at e st name (s - 1)).1 =
      .ok ((e.NL5_GetDataAt st ntrace (s - 1)).2.1, (e.NL5_GetDataAt st ntrace (s - 1)).2.2)
    ∧ (get_data_at e st name s).1 = .error ⟨.value, idxMsg⟩
    ∧ (∀ n : Int, -2 ^ 31 ≤ n → n < 0 →
        (get_data_at e st name n).1 = .error ⟨.value, idxMsg⟩)
    ∧ (get_data_size e st name).1 = .ok s := by
  have hga : ∀ n : Int, (get_data_at e st name n).1 =
      if (e.NL5_GetDataAt st ntrace (cInt n)).1 < 0 then .error ⟨.value, idxMsg⟩
      else .ok ((e.NL5_GetDataAt st ntrace (cInt n)).2.1,
        (e.NL5_GetDataAt st ntrace (cInt n)).2.2) := by
    intro n
    simp [get_data_at, requireOpen, resolveThen, checkCall, hst, htr, htr0, apply_ite]
  refine ⟨?_, ?_, ?_, ?_, ?_⟩
  · have hc : cInt (0 : Int) = 0 := cInt_eq_self (by norm_num) (by norm_num)
    have h0 : ¬ (e.NL5_GetDataAt st ntrace 0).1 < 0 := by rw [hrange]; omega
    rw [hga, hc, if_neg h0]
  · have hc : cInt (s - 1) = s - 1 := cInt_eq_self (by omega) (by omega)
    have h1 : ¬ (e.NL5_GetDataAt st ntrace (s - 1)).1 < 0 := by rw [hrange]; omega
    rw [hga, hc, if_neg h1]
  · have hc : cInt s = s := cInt_eq_self (by omega) (by omega)
    have h2 : (e.NL5_GetDataAt st ntrace s).1 < 0 := (hrange s).mpr (Or.inr le_rfl)
    rw [hga, hc, if_pos h2]
  · intro n hn1 hn2
    have hc : cInt n = n := cInt_eq_self hn1 (by omega)
    have h3 : (e.NL5_GetDataAt st ntrace n).1 < 0 := (hrange n).mpr (Or.inl hn2)
    rw [hga, hc, if_pos h3]
  · have h4 : ¬ s < 0 := by omega
    simp [get_data_size, requireOpen, resolveThen, checkCall, hst, htr, htr0, hsz, h4,
      apply_ite]

/-- C8 witness: the amended boundary behavior at the concrete `dataEngine`
(size 3): indices 0 and 2 succeed, index 3 and every in-range negative
index raise. -/
theorem get_data_at_boundary_witness :
    (get_data_at dataEngine 0 "V(out)" 0).1 =
      .ok ((dataEngine.NL5_GetDataAt 0 0 0).2.1, (dataEngine.NL5_GetDataAt 0 0 0).2.2)
    ∧ (get_data_at dataEngine 0 "V(out)" (3 - 1)).1 =
      .ok ((dataEngine.NL5_GetDataAt 0 0 (3 - 1)).2.1,
        (dataEngine.NL5_GetDataAt 0 0 (3 - 1)).2.2)
    ∧ (get_data_at dataEngine 0 "V(out)" 3).1 = .error ⟨.value, idxMsg⟩
    ∧ (∀ n : Int, -2 ^ 31 ≤ n → n < 0 →
        (get_data_at dataEngine 0 "V(out)" n).1 = .error ⟨.value, idxMsg⟩)
    ∧ (get_data_size dataEngine 0 "V(out)").1 = .ok 3 :=
  get_data_at_boundary dataEngine 0 0 3 "V(out)" (by decide) rfl (by decide) rfl
    (by decide) (by norm_num)
    (fun n => by
      simp only [dataEngine]
      split_ifs with h <;> simp <;> omega)

end NL5_dll
